import Mathlib

/-!
Shallow embedding of the x402 demo repository: the v2 payment middleware
(`X402Middleware` in the merchant server), the v2 client's payment/signature
construction (`client.js`, `utils/signature.js`), and the facilitator wire
payloads.  JavaScript strings are modelled as Lean `String`, JS `undefined`
as `Option`, JS exceptions as `Except String`.
-/

namespace X402

/-- JS truthiness of an optional string value: `undefined` / `null` and the
empty string are falsy, every other string is truthy. -/
def jsTruthyStr : Option String → Bool
  | none => false
  | some s => !s.isEmpty

/-- JS `a || d` where `a` is an optional string and `d` the fallback. -/
def jsOrStr (a : Option String) (d : String) : String :=
  match a with
  | none => d
  | some s => if s.isEmpty then d else s

/-- Does `hay` start with `sub` (character-wise)? -/
def startsWithL : List Char → List Char → Bool
  | _, [] => true
  | [], _ :: _ => false
  | a :: as, b :: bs => a == b && startsWithL as bs

/-- Character-list substring containment, mirroring JS
`String.prototype.includes` over code units (all strings here are ASCII). -/
def includesL (hay sub : List Char) : Bool :=
  match hay with
  | [] => startsWithL [] sub
  | c :: t => startsWithL (c :: t) sub || includesL t sub

/-- JS `s.includes(sub)` on strings. -/
def strIncludes (s sub : String) : Bool :=
  includesL s.data sub.data

/-- JS `x?.includes(sub)` for an optional string `x`: `undefined` is falsy. -/
def jsOptIncludes : Option String → String → Bool
  | none, _ => false
  | some s, sub => strIncludes s sub

/-- One entry of the `supportedTokens` configuration array built in
`merchant-server/server.js` and consumed by `X402Middleware`. -/
structure Token where
  contractType : String
  address : String
  chainId : Nat
  domainName : String
  domainVersion : String
  explorerUrl : String
  description : String
  amount : Option String
deriving Repr, DecidableEq

/-- The configuration object passed to `new X402Middleware(config)`.
`pricePerRequest` is a JS float; the middleware only ever uses
`Math.floor(pricePerRequest * 1000000)`, which we carry directly as
`priceMicroUnits`. -/
structure MiddlewareConfig where
  facilitatorUrl : String
  payToAddress : String
  priceMicroUnits : Nat
  supportedTokens : List Token
deriving Repr, DecidableEq

/-- The constructed middleware state (`this` after the constructor ran). -/
structure Middleware where
  facilitatorUrl : String
  payToAddress : String
  priceMicroUnits : Nat
  supportedTokens : List Token
  scheme : String
deriving Repr, DecidableEq

/-- The `X402Middleware` constructor: copies the configuration, fixes
`scheme = "exact"` and throws when no tokens are configured. -/
def mkX402Middleware (cfg : MiddlewareConfig) : Except String Middleware :=
  if cfg.supportedTokens.length = 0 then
    .error "No tokens configured in X402Middleware"
  else
    .ok { facilitatorUrl := cfg.facilitatorUrl
          payToAddress := cfg.payToAddress
          priceMicroUnits := cfg.priceMicroUnits
          supportedTokens := cfg.supportedTokens
          scheme := "exact" }

/-- The `meta` object of one route of the v2 `accepts` array. -/
structure RouteMeta where
  domainName : String
  domainVersion : String
  contractType : String
  explorerUrl : String
  memo : String
deriving Repr, DecidableEq

/-- One route of the v2 `accepts` array rendered by `sendPaymentRequired`. -/
structure Route where
  scheme : String
  network : String
  asset : String
  amount : String
  payTo : String
  description : String
  timeoutSeconds : Nat
  meta : RouteMeta
deriving Repr, DecidableEq

/-- The body of the `supportedTokens.map` callback in `sendPaymentRequired`:
renders one configured token into one challenge route.  `memo` and the
default `amount` string are computed once outside the map. -/
def mkAcceptRoute (m : Middleware) (memo amount : String) (t : Token) : Route :=
  { scheme := m.scheme
    network := "eip155:" ++ toString t.chainId
    asset := t.address
    amount := jsOrStr t.amount amount
    payTo := m.payToAddress
    description := t.description
    timeoutSeconds := 120
    meta := { domainName := t.domainName
              domainVersion := t.domainVersion
              contractType := t.contractType
              explorerUrl := t.explorerUrl
              memo := memo } }

/-- The `accepts` array of the 402 challenge built by `sendPaymentRequired`:
`amount = Math.floor(pricePerRequest * 1000000).toString()`,
`memo = resource || req.path`, then one entry per configured token. -/
def sendPaymentRequiredAccepts (m : Middleware) (resource reqPath : String) :
    List Route :=
  let amount := toString m.priceMicroUnits
  let memo := if resource.isEmpty then reqPath else resource
  m.supportedTokens.map (mkAcceptRoute m memo amount)

/-- The `authorization` object inside an inbound v2 credential
(`paymentData.authorization` in `verifyPayment`); every field may be absent
(`undefined`) in a malformed credential. -/
structure AuthData where
  fromAddr : Option String
  toAddr : Option String
  value : Option String
  validAfter : Option Nat
  validBefore : Option Nat
  nonce : Option String
  memo : Option String
deriving Repr, DecidableEq

/-- `payment.paymentPayload.payload`: signature plus authorization. -/
structure PaymentPayloadContent where
  signature : Option String
  authorization : Option AuthData
deriving Repr, DecidableEq

/-- `payment.paymentPayload` of an inbound v2 credential. -/
structure PaymentPayloadData where
  scheme : Option String
  network : Option String
  payload : Option PaymentPayloadContent
deriving Repr, DecidableEq

/-- An inbound v2 payment credential as parsed from the
`payment-signature` header. -/
structure Payment where
  paymentPayload : Option PaymentPayloadData
  memo : Option String
  resource : Option String
deriving Repr, DecidableEq

/-- `payment.paymentPayload?.payload || \x7b\x7d`. -/
def Payment.paymentData (p : Payment) : PaymentPayloadContent :=
  (p.paymentPayload.bind (·.payload)).getD { signature := none, authorization := none }

/-- `paymentData.authorization || \x7b\x7d`. -/
def Payment.authData (p : Payment) : AuthData :=
  p.paymentData.authorization.getD
    { fromAddr := none, toAddr := none, value := none
      validAfter := none, validBefore := none, nonce := none, memo := none }

/-- The token (route) the middleware decides the credential used, from
`verifyPayment` / `settlePayment`:
`supportedTokens.find(t => payment.paymentPayload?.network?.includes(t.chainId.toString())) || supportedTokens[0]`.
Substring match on the decimal chain id, first-token fallback on no match. -/
def usedToken (m : Middleware) (payment : Payment) : Option Token :=
  match m.supportedTokens.find?
      (fun t => jsOptIncludes (payment.paymentPayload.bind (·.network)) (toString t.chainId)) with
  | some t => some t
  | none => m.supportedTokens.head?

/-- The `extra` object of the `paymentRequirements` sent to the facilitator. -/
structure Extra where
  name : String
  version : String
  contractType : String
  allowNegativeBalance : Bool
deriving Repr, DecidableEq

/-- The `authorization` object forwarded to the facilitator inside
`paymentPayload.payload`. -/
structure FwdAuthorization where
  fromAddr : Option String
  toAddr : String
  value : Option String
  validAfter : String
  validBefore : String
  nonce : Option String
  memo : String
deriving Repr, DecidableEq

/-- The `paymentRequirements` object of the facilitator request. -/
structure PaymentRequirements where
  scheme : String
  network : String
  maxAmountRequired : Option String
  resource : String
  description : String
  mimeType : String
  maxTimeoutSeconds : Nat
  payTo : String
  asset : String
  extra : Extra
deriving Repr, DecidableEq

/-- A complete v1 facilitator request body (shared shape of the `/verify`
and `/settle` payloads). -/
structure FacilitatorRequest where
  x402Version : Nat
  ppScheme : String
  ppNetwork : String
  signature : Option String
  authorization : FwdAuthorization
  requirements : PaymentRequirements
deriving Repr, DecidableEq

/-- The local phase of `verifyPayment` (before the HTTP call): extract the
payload, check `!signature || !authData.from` (throwing the
`Invalid payment structure` error), resolve the used token, and build the
`verifyPayload` object.  Reading `.toString()` of an absent
`validAfter`/`validBefore`, or indexing an empty token list, throws a
`TypeError` in JS; both are modelled as errors. -/
def mkVerifyPayload (m : Middleware) (payment : Payment) (resource : String) :
    Except String FacilitatorRequest :=
  let paymentData := payment.paymentData
  let authData := payment.authData
  let memo := jsOrStr payment.memo (jsOrStr authData.memo resource)
  let signature := paymentData.signature
  if !jsTruthyStr signature || !jsTruthyStr authData.fromAddr then
    .error "Invalid payment structure: missing signature or from address"
  else
    match usedToken m payment with
    | none => .error "TypeError: cannot read properties of undefined"
    | some t =>
      match authData.validAfter, authData.validBefore with
      | some va, some vb =>
        .ok { x402Version := 1
              ppScheme := m.scheme
              ppNetwork := "base-sepolia"
              signature := signature
              authorization :=
                { fromAddr := authData.fromAddr
                  toAddr := m.payToAddress
                  value := authData.value
                  validAfter := toString va
                  validBefore := toString vb
                  nonce := authData.nonce
                  memo := memo }
              requirements :=
                { scheme := m.scheme
                  network := "base-sepolia"
                  maxAmountRequired := authData.value
                  resource := resource
                  description := "payment"
                  mimeType := "application/json"
                  maxTimeoutSeconds := 60
                  payTo := m.payToAddress
                  asset := t.address
                  extra :=
                    { name := t.domainName
                      version := t.domainVersion
                      contractType := t.contractType
                      allowNegativeBalance :=
                        if t.contractType == "DailyLedger" then true else false } } }
      | _, _ => .error "TypeError: cannot read properties of undefined"

/-- The local phase of `settlePayment` (before the HTTP call).  Identical to
the verify payload construction except that `settlePayment` performs no
signature/from presence check. -/
def mkSettlePayload (m : Middleware) (payment : Payment) (resource : String) :
    Except String FacilitatorRequest :=
  let paymentData := payment.paymentData
  let authData := payment.authData
  let memo := jsOrStr payment.memo (jsOrStr authData.memo resource)
  let signature := paymentData.signature
  match usedToken m payment with
  | none => .error "TypeError: cannot read properties of undefined"
  | some t =>
    match authData.validAfter, authData.validBefore with
    | some va, some vb =>
      .ok { x402Version := 1
            ppScheme := m.scheme
            ppNetwork := "base-sepolia"
            signature := signature
            authorization :=
              { fromAddr := authData.fromAddr
                toAddr := m.payToAddress
                value := authData.value
                validAfter := toString va
                validBefore := toString vb
                nonce := authData.nonce
                memo := memo }
            requirements :=
              { scheme := m.scheme
                network := "base-sepolia"
                maxAmountRequired := authData.value
                resource := resource
                description := "payment"
                mimeType := "application/json"
                maxTimeoutSeconds := 60
                payTo := m.payToAddress
                asset := t.address
                extra :=
                  { name := t.domainName
                    version := t.domainVersion
                    contractType := t.contractType
                    allowNegativeBalance :=
                      if t.contractType == "DailyLedger" then true else false } } }
    | _, _ => .error "TypeError: cannot read properties of undefined"

/-- The JSON body of a facilitator response, read by `verifyPayment` as
`response.data.isValid === true || response.data.valid === true`. -/
structure FacilitatorResponse where
  isValid : Option Bool
  valid : Option Bool
deriving Repr, DecidableEq

/-- Outcome of one outbound HTTP call to the facilitator: a JSON response,
or an axios throw (timeout, transport failure, non-2xx status). -/
inductive RemoteResult where
  | responded (r : FacilitatorResponse)
  | failed
deriving Repr, DecidableEq

/-- `response.data.isValid === true || response.data.valid === true`. -/
def interpretVerifyResponse (r : FacilitatorResponse) : Bool :=
  r.isValid == some true || r.valid == some true

/-- `verifyPayment` end to end: local payload construction (may throw), the
remote `/verify` call (may throw), and interpretation of the response.  The
`catch` in `verifyPayment` logs and rethrows, so every throw propagates. -/
def verifyPaymentRun (m : Middleware) (payment : Payment) (resource : String)
    (remote : RemoteResult) : Except String Bool :=
  match mkVerifyPayload m payment resource with
  | .error e => .error e
  | .ok _ =>
    match remote with
    | .failed => .error "Verification request failed"
    | .responded r => .ok (interpretVerifyResponse r)

/-- `settlePayment` end to end: payload construction then the `/settle`
call; its `catch` also rethrows, but the middleware attaches
`.catch(console.error)` to the dispatched promise, so the error never
escapes the detached task. -/
def settlePaymentRun (m : Middleware) (payment : Payment) (resource : String)
    (remote : RemoteResult) : Except String FacilitatorResponse :=
  match mkSettlePayload m payment resource with
  | .error e => .error e
  | .ok _ =>
    match remote with
    | .failed => .error "Settlement request failed"
    | .responded r => .ok r

/-- The terminal outcome the middleware hands the HTTP layer for one
request: a JSON error response with a fixed status, the 402 challenge, or
`next()` (the wrapped handler answers). -/
inductive MwResponse where
  | paymentRequired (accepts : List Route)
  | badRequest
  | verificationFailed
  | internalError
  | next
deriving Repr, DecidableEq

/-- The HTTP status set by the middleware itself; `none` when the request
is passed through to the wrapped handler. -/
def MwResponse.status : MwResponse → Option Nat
  | .paymentRequired _ => some 402
  | .badRequest => some 400
  | .verificationFailed => some 402
  | .internalError => some 500
  | .next => none

instance {α β : Type} [DecidableEq α] [DecidableEq β] : DecidableEq (Except α β) :=
  fun a b =>
    match a, b with
    | .error x, .error y =>
      if h : x = y then .isTrue (by rw [h]) else .isFalse (by simp [h])
    | .error _, .ok _ => .isFalse (by simp)
    | .ok _, .error _ => .isFalse (by simp)
    | .ok x, .ok y =>
      if h : x = y then .isTrue (by rw [h]) else .isFalse (by simp [h])

/-- Observable trace of one middleware execution: the response, how many
times `verifyPayment` and `settlePayment` were invoked, and the outcome of
the detached settlement task (recorded, never surfaced). -/
structure MwTrace where
  response : MwResponse
  verifyCalls : Nat
  settleCalls : Nat
  settleOutcome : Option (Except String FacilitatorResponse)
deriving Repr, DecidableEq

/-- One execution of the Express handler returned by `middleware()`.
`header` is `req.headers[..payment-signature..]` (absent or a string);
`parse` is `JSON.parse` restricted to this header (`none` = throw);
`verifyRemote` / `settleRemote` are the facilitator's reactions to the two
outbound calls.  Branches, in source order: falsy header → 402 challenge;
parse throw → 400; `verifyPayment` throw → 500; invalid → 402; valid →
`next()` plus one fire-and-forget `settlePayment` whose failure is caught. -/
def runMiddleware (m : Middleware) (header : Option String)
    (parse : String → Option Payment) (resource reqPath : String)
    (verifyRemote settleRemote : RemoteResult) : MwTrace :=
  if !jsTruthyStr header then
    { response := .paymentRequired (sendPaymentRequiredAccepts m resource reqPath)
      verifyCalls := 0, settleCalls := 0, settleOutcome := none }
  else
    match header with
    | none =>
      { response := .paymentRequired (sendPaymentRequiredAccepts m resource reqPath)
        verifyCalls := 0, settleCalls := 0, settleOutcome := none }
    | some h =>
      match parse h with
      | none =>
        { response := .badRequest
          verifyCalls := 0, settleCalls := 0, settleOutcome := none }
      | some payment =>
        match verifyPaymentRun m payment resource verifyRemote with
        | .error _ =>
          { response := .internalError
            verifyCalls := 1, settleCalls := 0, settleOutcome := none }
        | .ok false =>
          { response := .verificationFailed
            verifyCalls := 1, settleCalls := 0, settleOutcome := none }
        | .ok true =>
          { response := .next
            verifyCalls := 1, settleCalls := 1
            settleOutcome := some (settlePaymentRun m payment resource settleRemote) }

/-- The EIP-712 domain built in `createTransferWithAuthorizationSignature`. -/
structure EIP712Domain where
  name : String
  version : String
  chainId : Nat
  verifyingContract : String
deriving Repr, DecidableEq

/-- One entry of an EIP-712 type definition. -/
structure TypedField where
  name : String
  fieldType : String
deriving Repr, DecidableEq

/-- The `TransferWithAuthorization` message value signed by the client. -/
structure TransferWithAuthorizationMessage where
  fromAddr : String
  toAddr : String
  value : String
  validAfter : Nat
  validBefore : Nat
  nonce : String
deriving Repr, DecidableEq

/-- The parameter object the v2 client passes to
`SignatureUtils.createTransferWithAuthorizationSignature` (`client.js`,
`createPaymentV2`): it includes a `memo`, which the signing utility does
not destructure. -/
structure SignatureParams where
  fromAddr : String
  toAddr : String
  value : String
  validAfter : Nat
  validBefore : Nat
  nonce : String
  memo : Option String
  domainName : String
  domainVersion : String
  chainId : Nat
  verifyingContract : String
deriving Repr, DecidableEq

/-- The `types` object defined in `createTransferWithAuthorizationSignature`
(`utils/signature.js`): exactly six fields, fixed order, no memo entry. -/
def transferWithAuthorizationTypes : List TypedField :=
  [ { name := "from", fieldType := "address" }
  , { name := "to", fieldType := "address" }
  , { name := "value", fieldType := "uint256" }
  , { name := "validAfter", fieldType := "uint256" }
  , { name := "validBefore", fieldType := "uint256" }
  , { name := "nonce", fieldType := "bytes32" } ]

/-- The typed structured-data input handed to `wallet.signTypedData(domain,
types, message)` by `createTransferWithAuthorizationSignature`: the domain,
the type table, and the message, all built only from the destructured
parameters (`memo` is never read). -/
def buildTypedMessage (p : SignatureParams) :
    EIP712Domain × List TypedField × TransferWithAuthorizationMessage :=
  ( { name := p.domainName
      version := p.domainVersion
      chainId := p.chainId
      verifyingContract := p.verifyingContract }
  , transferWithAuthorizationTypes
  , { fromAddr := p.fromAddr
      toAddr := p.toAddr
      value := p.value
      validAfter := p.validAfter
      validBefore := p.validBefore
      nonce := p.nonce } )

/-- JS `n.toString(16)` for a non-negative number: minimal lowercase hex. -/
def natToHexString (n : Nat) : String :=
  ⟨Nat.toDigits 16 n⟩

/-- JS `s.padStart(2, "0")`. -/
def padStart2 (s : String) : String :=
  if s.length ≥ 2 then s
  else if s.length = 1 then "0" ++ s
  else "00" ++ s

/-- The packed-signature template literal of `createPaymentV2`
(`client.js` line 499):
the `0x`-prefixed `r`, then `s.slice(2)`, then
`v.toString(16).padStart(2, "0")`.  No validation of any component. -/
def encodeSignature (r s : String) (v : Nat) : String :=
  r ++ s.drop 2 ++ padStart2 (natToHexString v)

/-! Concrete sample data, used by witnesses and counterexamples.  Shapes
follow `merchant-server/server.js`; string values are shortened. -/

/-- Sample DailyLedger token (first configured route). -/
def tokenDailyLedger : Token :=
  { contractType := "DailyLedger", address := "0xDL", chainId := 1337
    domainName := "DailyLedger", domainVersion := "1"
    explorerUrl := "http://dl", description := "Pay with DailyLedger"
    amount := none }

/-- Sample USDC token (second configured route). -/
def tokenUSDC : Token :=
  { contractType := "USDC", address := "0xUSDC", chainId := 84532
    domainName := "USD Coin", domainVersion := "2"
    explorerUrl := "http://usdc", description := "Pay with USDC"
    amount := none }

/-- Sample middleware configuration with the two routes of the demo server. -/
def sampleConfig : MiddlewareConfig :=
  { facilitatorUrl := "http://f", payToAddress := "0xPAYTO"
    priceMicroUnits := 10000
    supportedTokens := [tokenDailyLedger, tokenUSDC] }

/-- The middleware the constructor builds from `sampleConfig`. -/
def sampleMiddleware : Middleware :=
  { facilitatorUrl := "http://f", payToAddress := "0xPAYTO"
    priceMicroUnits := 10000
    supportedTokens := [tokenDailyLedger, tokenUSDC]
    scheme := "exact" }

/-- A structurally complete authorization, as the v2 client produces. -/
def sampleAuth : AuthData :=
  { fromAddr := some "0xFROM", toAddr := some "0xPAYTO"
    value := some "10000", validAfter := some 0
    validBefore := some 1710000000, nonce := some "0xN1", memo := none }

/-- Assemble a credential around a network string and an authorization. -/
def mkSamplePayment (network : Option String) (auth : AuthData)
    (sig : Option String) : Payment :=
  { paymentPayload := some
      { scheme := some "exact", network := network
        payload := some { signature := sig, authorization := some auth } }
    memo := none
    resource := some "/api/protected" }

/-- A well-formed credential naming the first configured network. -/
def goodPayment : Payment :=
  mkSamplePayment (some "eip155:1337") sampleAuth (some "0xSIG")

/-- A well-formed credential naming a network no route is configured for. -/
def paymentUnknownNetwork : Payment :=
  mkSamplePayment (some "eip155:999") sampleAuth (some "0xSIG")

/-- A credential that parses as JSON but lacks the `signature` field. -/
def paymentNoSignature : Payment :=
  mkSamplePayment (some "eip155:1337") sampleAuth none

/-- A parse oracle for a header whose JSON is invalid (`JSON.parse` throws). -/
def parseFailJson : String → Option Payment := fun _ => none

/-- A parse oracle yielding the well-formed sample credential. -/
def parseGoodPayment : String → Option Payment := fun _ => some goodPayment

/-- A parse oracle yielding the credential with no signature. -/
def parseNoSignature : String → Option Payment := fun _ => some paymentNoSignature

/-- A facilitator that answers the verify call with `isValid: true`. -/
def remoteValid : RemoteResult := .responded { isValid := some true, valid := none }

/-! Elimination lemmas describing the unique successful shape of the two
payload builders; shared by several theorems below. -/

/-- The facilitator request that both builders produce on success, given
the resolved token and the present validity bounds. -/
def facilitatorRequestOf (m : Middleware) (p : Payment) (r : String)
    (t : Token) (va vb : Nat) : FacilitatorRequest :=
  { x402Version := 1
    ppScheme := m.scheme
    ppNetwork := "base-sepolia"
    signature := p.paymentData.signature
    authorization :=
      { fromAddr := p.authData.fromAddr
        toAddr := m.payToAddress
        value := p.authData.value
        validAfter := toString va
        validBefore := toString vb
        nonce := p.authData.nonce
        memo := jsOrStr p.memo (jsOrStr p.authData.memo r) }
    requirements :=
      { scheme := m.scheme
        network := "base-sepolia"
        maxAmountRequired := p.authData.value
        resource := r
        description := "payment"
        mimeType := "application/json"
        maxTimeoutSeconds := 60
        payTo := m.payToAddress
        asset := t.address
        extra :=
          { name := t.domainName
            version := t.domainVersion
            contractType := t.contractType
            allowNegativeBalance :=
              if t.contractType == "DailyLedger" then true else false } } }

lemma mkVerifyPayload_ok_elim {m : Middleware} {p : Payment} {r : String}
    {vp : FacilitatorRequest} (h : mkVerifyPayload m p r = .ok vp) :
    ∃ t va vb, usedToken m p = some t ∧ p.authData.validAfter = some va
      ∧ p.authData.validBefore = some vb
      ∧ vp = facilitatorRequestOf m p r t va vb := by
  simp only [mkVerifyPayload] at h
  by_cases hsig :
      (!jsTruthyStr p.paymentData.signature || !jsTruthyStr p.authData.fromAddr) = true
  · rw [if_pos hsig] at h
    exact absurd h (by simp)
  · rw [if_neg hsig] at h
    rcases ht : usedToken m p with _ | t <;> rw [ht] at h
    · exact absurd h (by simp)
    · rcases hva : p.authData.validAfter with _ | va <;>
        rcases hvb : p.authData.validBefore with _ | vb <;>
        rw [hva, hvb] at h
      · exact absurd h (by simp)
      · exact absurd h (by simp)
      · exact absurd h (by simp)
      · refine ⟨t, va, vb, rfl, rfl, rfl, ?_⟩
        simp only [Except.ok.injEq] at h
        exact h.symm

lemma mkSettlePayload_ok_elim {m : Middleware} {p : Payment} {r : String}
    {sp : FacilitatorRequest} (h : mkSettlePayload m p r = .ok sp) :
    ∃ t va vb, usedToken m p = some t ∧ p.authData.validAfter = some va
      ∧ p.authData.validBefore = some vb
      ∧ sp = facilitatorRequestOf m p r t va vb := by
  simp only [mkSettlePayload] at h
  rcases ht : usedToken m p with _ | t <;> rw [ht] at h
  · exact absurd h (by simp)
  · rcases hva : p.authData.validAfter with _ | va <;>
      rcases hvb : p.authData.validBefore with _ | vb <;>
      rw [hva, hvb] at h
    · exact absurd h (by simp)
    · exact absurd h (by simp)
    · exact absurd h (by simp)
    · refine ⟨t, va, vb, rfl, rfl, rfl, ?_⟩
      simp only [Except.ok.injEq] at h
      exact h.symm

/-- A configuration with zero routes. -/
def emptyConfig : MiddlewareConfig :=
  { facilitatorUrl := "http://f", payToAddress := "0xPAYTO"
    priceMicroUnits := 10000, supportedTokens := [] }

/-- C1: the claim says the typed structured-data message built for signing
with a memo differs from the one built without.  The code refutes this:
`createTransferWithAuthorizationSignature` never reads the `memo`
parameter, its type table has no memo field, and the typed message it hands
`wallet.signTypedData` is identical whether or not a memo is supplied. -/
theorem buildTypedMessage_ignores_memo (p : SignatureParams) (m : String) :
    buildTypedMessage { p with memo := some m } = buildTypedMessage { p with memo := none }
    ∧ transferWithAuthorizationTypes.all (fun f => f.name != "memo") = true :=
  ⟨rfl, by decide⟩

/-- C2 (amended): a parsed v2 credential whose network identifier matches
no configured route (substring match of each token's decimal chain id
against the credential's network string) does not fail route resolution:
the middleware falls back to the first configured token. -/
theorem unknownNetwork_falls_back_to_first_route (m : Middleware) (payment : Payment)
    (hnm : ∀ t ∈ m.supportedTokens,
      jsOptIncludes (payment.paymentPayload.bind (·.network)) (toString t.chainId) = false) :
    usedToken m payment = m.supportedTokens.head? := by
  unfold usedToken
  have hfind : m.supportedTokens.find?
      (fun t => jsOptIncludes (payment.paymentPayload.bind (·.network)) (toString t.chainId))
        = none := by
    apply List.find?_eq_none.mpr
    intro x hx
    simp [hnm x hx]
  rw [hfind]

/-- Witness for C2 (amended): with the demo's two configured routes and a
credential naming `eip155:999`, resolution yields the head of the route
list. -/
theorem unknownNetwork_falls_back_witness :
    usedToken sampleMiddleware paymentUnknownNetwork
      = sampleMiddleware.supportedTokens.head? :=
  unknownNetwork_falls_back_to_first_route sampleMiddleware paymentUnknownNetwork (by decide)

/-- Counterexample to C2 as stated: for the credential naming the
unconfigured network `eip155:999`, route resolution selects the first
configured route (the DailyLedger token) and verification proceeds to
build a facilitator payload — no `UnknownRouteError` is raised. -/
theorem unknownNetwork_counterexample :
    usedToken sampleMiddleware paymentUnknownNetwork = some tokenDailyLedger
    ∧ (mkVerifyPayload sampleMiddleware paymentUnknownNetwork "/api/protected").isOk
        = true := by
  decide

/-- C4: a request with no payment credential header always receives the
402 challenge (the rendered route list), and neither `verifyPayment` nor
`settlePayment` is ever invoked. -/
theorem noCredential_challenge_no_calls (m : Middleware)
    (parse : String → Option Payment) (resource reqPath : String)
    (verifyRemote settleRemote : RemoteResult) :
    (runMiddleware m none parse resource reqPath verifyRemote settleRemote).response
      = .paymentRequired (sendPaymentRequiredAccepts m resource reqPath)
    ∧ (runMiddleware m none parse resource reqPath verifyRemote settleRemote).response.status
        = some 402
    ∧ (runMiddleware m none parse resource reqPath verifyRemote settleRemote).verifyCalls = 0
    ∧ (runMiddleware m none parse resource reqPath verifyRemote settleRemote).settleCalls = 0 :=
  ⟨rfl, rfl, rfl, rfl⟩

/-- C8: constructing the middleware with zero configured tokens throws the
configuration error; with tokens configured, the rendered challenge holds
exactly one route per configured token, in registration order (the i-th
challenge entry is rendered from the i-th configured token). -/
theorem routeRegistry_zero_fails_and_order (cfg : MiddlewareConfig)
    (resource reqPath : String) :
    (cfg.supportedTokens = [] →
      mkX402Middleware cfg = .error "No tokens configured in X402Middleware")
    ∧ ∀ mw, mkX402Middleware cfg = .ok mw →
        (sendPaymentRequiredAccepts mw resource reqPath).length
            = cfg.supportedTokens.length
        ∧ ∀ i : Nat, (sendPaymentRequiredAccepts mw resource reqPath)[i]?
            = (cfg.supportedTokens[i]?).map
                (mkAcceptRoute mw (if resource.isEmpty then reqPath else resource)
                  (toString mw.priceMicroUnits)) := by
  constructor
  · intro h
    simp [mkX402Middleware, h]
  · intro mw hmw
    have hts : mw.supportedTokens = cfg.supportedTokens := by
      unfold mkX402Middleware at hmw
      split at hmw
      · exact absurd hmw (by simp)
      · simp only [Except.ok.injEq] at hmw
        rw [← hmw]
    constructor
    · simp [sendPaymentRequiredAccepts, hts]
    · intro i
      simp [sendPaymentRequiredAccepts, hts, List.getElem?_map]

/-- Witness for C8: the empty configuration fails with the configuration
error, and the two-token sample configuration renders exactly two routes. -/
theorem routeRegistry_witness :
    mkX402Middleware emptyConfig = .error "No tokens configured in X402Middleware"
    ∧ (sendPaymentRequiredAccepts sampleMiddleware "/r" "/p").length
        = sampleConfig.supportedTokens.length :=
  ⟨(routeRegistry_zero_fails_and_order emptyConfig "/r" "/p").1 (by decide),
   ((routeRegistry_zero_fails_and_order sampleConfig "/r" "/p").2
      sampleMiddleware (by decide)).1⟩

/-- C3: per request, `settlePayment` is dispatched at most once; it is
dispatched only when `verifyPayment` returned valid for the parsed
credential; and the response (hence the HTTP status already returned) is
the same whatever the settlement call's outcome. -/
theorem settle_gated_once_nonblocking (m : Middleware) (header : Option String)
    (parse : String → Option Payment) (resource reqPath : String)
    (verifyRemote s₁ s₂ : RemoteResult) :
    (runMiddleware m header parse resource reqPath verifyRemote s₁).settleCalls ≤ 1
    ∧ ((runMiddleware m header parse resource reqPath verifyRemote s₁).settleCalls = 1 →
        ∃ h payment, header = some h ∧ parse h = some payment
          ∧ verifyPaymentRun m payment resource verifyRemote = .ok true)
    ∧ (runMiddleware m header parse resource reqPath verifyRemote s₁).response
        = (runMiddleware m header parse resource reqPath verifyRemote s₂).response := by
  rcases header with _ | h
  · refine ⟨?_, ?_, ?_⟩ <;> simp [runMiddleware]
  · by_cases he : h.isEmpty = true
    · refine ⟨?_, ?_, ?_⟩ <;> simp [runMiddleware, jsTruthyStr, he]
    · rcases hp : parse h with _ | payment
      · refine ⟨?_, ?_, ?_⟩ <;> simp [runMiddleware, jsTruthyStr, he, hp]
      · rcases hv : verifyPaymentRun m payment resource verifyRemote with e | b
        · refine ⟨?_, ?_, ?_⟩ <;> simp [runMiddleware, jsTruthyStr, he, hp, hv]
        · cases b
          · refine ⟨?_, ?_, ?_⟩ <;> simp [runMiddleware, jsTruthyStr, he, hp, hv]
          · refine ⟨?_, ?_, ?_⟩
            · simp [runMiddleware, jsTruthyStr, he, hp, hv]
            · intro _
              exact ⟨h, payment, rfl, hp, hv⟩
            · simp [runMiddleware, jsTruthyStr, he, hp, hv]

/-- Witness for C3: with the sample credential and a facilitator that
validates it, at most one settlement is dispatched, settlement follows a
valid verification, and a failed settlement leaves the response identical
to a successful one. -/
theorem settle_gated_witness :
    (runMiddleware sampleMiddleware (some "hdr") parseGoodPayment "/r" "/p"
        remoteValid .failed).settleCalls ≤ 1
    ∧ (∃ h payment, (some "hdr" : Option String) = some h
        ∧ parseGoodPayment h = some payment
        ∧ verifyPaymentRun sampleMiddleware payment "/r" remoteValid = .ok true)
    ∧ (runMiddleware sampleMiddleware (some "hdr") parseGoodPayment "/r" "/p"
          remoteValid .failed).response
        = (runMiddleware sampleMiddleware (some "hdr") parseGoodPayment "/r" "/p"
            remoteValid remoteValid).response :=
  ⟨(settle_gated_once_nonblocking sampleMiddleware (some "hdr") parseGoodPayment
      "/r" "/p" remoteValid .failed .failed).1,
   (settle_gated_once_nonblocking sampleMiddleware (some "hdr") parseGoodPayment
      "/r" "/p" remoteValid .failed .failed).2.1 (by decide),
   (settle_gated_once_nonblocking sampleMiddleware (some "hdr") parseGoodPayment
      "/r" "/p" remoteValid .failed remoteValid).2.2⟩

/-- C5 (amended): a present credential header that is not valid JSON gets
400; but a credential that parses yet violates the schema (missing
signature or from address) gets 500, because the throw inside
`verifyPayment` is caught by the middleware's generic error handler. -/
theorem malformed_400_schema_500 (m : Middleware) (h : String)
    (parse : String → Option Payment) (resource reqPath : String)
    (verifyRemote settleRemote : RemoteResult) (hne : h.isEmpty = false) :
    (parse h = none →
      (runMiddleware m (some h) parse resource reqPath verifyRemote settleRemote).response
        = .badRequest)
    ∧ ∀ payment, parse h = some payment →
        (!jsTruthyStr payment.paymentData.signature
          || !jsTruthyStr payment.authData.fromAddr) = true →
        (runMiddleware m (some h) parse resource reqPath verifyRemote settleRemote).response
          = .internalError := by
  constructor
  · intro hp
    simp [runMiddleware, jsTruthyStr, hne, hp]
  · intro payment hp hbad
    have hmk : mkVerifyPayload m payment resource
        = .error "Invalid payment structure: missing signature or from address" := by
      simp only [mkVerifyPayload]
      rw [if_pos hbad]
    have hv : verifyPaymentRun m payment resource verifyRemote
        = .error "Invalid payment structure: missing signature or from address" := by
      unfold verifyPaymentRun
      rw [hmk]
    simp [runMiddleware, jsTruthyStr, hne, hp, hv]

/-- Witness for C5 (amended): a JSON-parse failure yields 400; the parsed
credential with no signature yields 500. -/
theorem malformed_witness :
    (runMiddleware sampleMiddleware (some "hdr") parseFailJson "/r" "/p"
        .failed .failed).response = .badRequest
    ∧ (runMiddleware sampleMiddleware (some "hdr") parseNoSignature "/r" "/p"
        .failed .failed).response = .internalError :=
  ⟨(malformed_400_schema_500 sampleMiddleware "hdr" parseFailJson "/r" "/p"
      .failed .failed (by decide)).1 rfl,
   (malformed_400_schema_500 sampleMiddleware "hdr" parseNoSignature "/r" "/p"
      .failed .failed (by decide)).2 paymentNoSignature rfl (by decide)⟩

/-- Counterexample to C5 as stated: the sample credential that parses as
JSON but lacks the `signature` field is answered with HTTP 500, not the
claimed 400. -/
theorem malformed_counterexample :
    (runMiddleware sampleMiddleware (some "hdr") parseNoSignature "/r" "/p"
        .failed .failed).response.status = some 500
    ∧ (runMiddleware sampleMiddleware (some "hdr") parseNoSignature "/r" "/p"
        .failed .failed).response.status ≠ some 400 := by
  decide

/-- A 0x-prefixed 32-byte hex string (66 characters) standing for `r`. -/
def sampleR : String :=
  "0x1111111111111111111111111111111111111111111111111111111111111111"

/-- A 0x-prefixed 32-byte hex string (66 characters) standing for `s`. -/
def sampleS : String :=
  "0x2222222222222222222222222222222222222222222222222222222222222222"

/-- C6 (amended): the packed signature is the concatenation of `r`, `s`
without its `0x` prefix, and `v` as two lowercase hex digits; for
32-byte `r`, `s` and legal `v` the result is 65 bytes
(132 characters including the `0x` prefix).  No validation is performed. -/
theorem encodeSignature_packs (r s : String) (v : Nat)
    (hr : r.length = 66) (hs : s.length = 66) (hv : v = 27 ∨ v = 28) :
    encodeSignature r s v = r ++ s.drop 2 ++ (if v = 27 then "1b" else "1c")
    ∧ (encodeSignature r s v).length = 132 := by
  have hhex : padStart2 (natToHexString v) = (if v = 27 then "1b" else "1c") := by
    rcases hv with rfl | rfl <;> decide
  constructor
  · rw [encodeSignature, hhex]
  · have e1 : (encodeSignature r s v).data
        = r.data ++ s.data.drop 2 ++ (padStart2 (natToHexString v)).data := by
      simp [encodeSignature, String.data_append, String.data_drop]
    have e2 : (encodeSignature r s v).length = (encodeSignature r s v).data.length := rfl
    have hpad : (padStart2 (natToHexString v)).data.length = 2 := by
      rcases hv with rfl | rfl <;> decide
    have hr2 : r.data.length = 66 := hr
    have hs2 : s.data.length = 66 := hs
    rw [e2, e1]
    simp only [List.length_append, List.length_drop]
    omega

/-- Witness for C6 (amended): packing concrete well-formed components. -/
theorem encodeSignature_packs_witness :
    encodeSignature sampleR sampleS 27
      = sampleR ++ sampleS.drop 2 ++ (if 27 = 27 then "1b" else "1c")
    ∧ (encodeSignature sampleR sampleS 27).length = 132 :=
  encodeSignature_packs sampleR sampleS 27 (by decide) (by decide) (Or.inl rfl)

/-- Counterexample to C6 as stated: the encoding never fails.  With
`v = 0` (outside the claimed legal set) and even with 2-character `r` and
`s`, a packed string is produced without any error. -/
theorem encodeSignature_no_validation :
    encodeSignature sampleR sampleS 0 = sampleR ++ sampleS.drop 2 ++ "00"
    ∧ encodeSignature "0x" "0x" 27 = "0x1b" := by
  constructor
  · decide
  · decide

/-- The facilitator request built from the well-formed sample credential. -/
def sampleVerifyRequest : FacilitatorRequest :=
  facilitatorRequestOf sampleMiddleware goodPayment "/r" tokenDailyLedger 0 1710000000

/-- C7: in both the verify and the settle payload, `extra` (and in
particular `allowNegativeBalance`) is the same for the same credential,
and the flag is determined by the resolved token's contract type:
true exactly for `DailyLedger`, false for `USDC`. -/
theorem allowNegativeBalance_from_contractType (m : Middleware) (payment : Payment)
    (resource : String) (vp sp : FacilitatorRequest) (t : Token)
    (hv : mkVerifyPayload m payment resource = .ok vp)
    (hs : mkSettlePayload m payment resource = .ok sp)
    (ht : usedToken m payment = some t) :
    vp.requirements.extra = sp.requirements.extra
    ∧ vp.requirements.extra.allowNegativeBalance = (t.contractType == "DailyLedger")
    ∧ (t.contractType = "DailyLedger" →
        vp.requirements.extra.allowNegativeBalance = true)
    ∧ (t.contractType = "USDC" →
        vp.requirements.extra.allowNegativeBalance = false) := by
  obtain ⟨t1, va1, vb1, ht1, _, _, hvp⟩ := mkVerifyPayload_ok_elim hv
  obtain ⟨t2, va2, vb2, ht2, _, _, hsp⟩ := mkSettlePayload_ok_elim hs
  rw [ht] at ht1 ht2
  injection ht1 with ht1
  injection ht2 with ht2
  subst ht1 ht2 hvp hsp
  refine ⟨rfl, ?_, ?_, ?_⟩
  · simp only [facilitatorRequestOf]
    cases hb : t.contractType == "DailyLedger" <;> simp [hb]
  · intro hct
    simp only [facilitatorRequestOf]
    rw [hct]
    decide
  · intro hct
    simp only [facilitatorRequestOf]
    rw [hct]
    decide

/-- Witness for C7: the sample credential resolves to the DailyLedger
token, whose flag is true in both payloads. -/
theorem allowNegativeBalance_witness :
    sampleVerifyRequest.requirements.extra = sampleVerifyRequest.requirements.extra
    ∧ sampleVerifyRequest.requirements.extra.allowNegativeBalance
        = (tokenDailyLedger.contractType == "DailyLedger")
    ∧ (tokenDailyLedger.contractType = "DailyLedger" →
        sampleVerifyRequest.requirements.extra.allowNegativeBalance = true)
    ∧ (tokenDailyLedger.contractType = "USDC" →
        sampleVerifyRequest.requirements.extra.allowNegativeBalance = false) :=
  allowNegativeBalance_from_contractType sampleMiddleware goodPayment "/r"
    sampleVerifyRequest sampleVerifyRequest tokenDailyLedger
    (by decide) (by decide) (by decide)

/-- A credential whose signed authorization names a recipient different
from the server's payTo address. -/
def paymentOtherRecipient : Payment :=
  mkSamplePayment (some "eip155:1337")
    { sampleAuth with toAddr := some "0xOTHER" } (some "0xSIG")

/-- The facilitator request built from `paymentOtherRecipient`. -/
def sampleVerifyRequestOther : FacilitatorRequest :=
  facilitatorRequestOf sampleMiddleware paymentOtherRecipient "/r"
    tokenDailyLedger 0 1710000000

/-- C9: the authorization forwarded to the facilitator carries the
server's configured payTo address as its recipient, in both the verify
and the settle payload, for every credential (whatever recipient the
credential's signed authorization names). -/
theorem forwarded_to_is_server_payTo (m : Middleware) (payment : Payment)
    (resource : String) (vp sp : FacilitatorRequest)
    (hv : mkVerifyPayload m payment resource = .ok vp)
    (hs : mkSettlePayload m payment resource = .ok sp) :
    vp.authorization.toAddr = m.payToAddress
    ∧ sp.authorization.toAddr = m.payToAddress
    ∧ vp.requirements.payTo = m.payToAddress
    ∧ sp.requirements.payTo = m.payToAddress := by
  obtain ⟨t1, va1, vb1, _, _, _, hvp⟩ := mkVerifyPayload_ok_elim hv
  obtain ⟨t2, va2, vb2, _, _, _, hsp⟩ := mkSettlePayload_ok_elim hs
  subst hvp hsp
  exact ⟨rfl, rfl, rfl, rfl⟩

/-- Witness for C9: the credential signed for recipient `0xOTHER` is
still forwarded with the server's `0xPAYTO` as recipient. -/
theorem forwarded_to_witness :
    sampleVerifyRequestOther.authorization.toAddr = sampleMiddleware.payToAddress
    ∧ sampleVerifyRequestOther.authorization.toAddr = sampleMiddleware.payToAddress
    ∧ sampleVerifyRequestOther.requirements.payTo = sampleMiddleware.payToAddress
    ∧ sampleVerifyRequestOther.requirements.payTo = sampleMiddleware.payToAddress :=
  forwarded_to_is_server_payTo sampleMiddleware paymentOtherRecipient "/r"
    sampleVerifyRequestOther sampleVerifyRequestOther (by decide) (by decide)

/-- A well-formed credential naming the USDC network. -/
def paymentUSDCNetwork : Payment :=
  mkSamplePayment (some "eip155:84532") sampleAuth (some "0xSIG")

/-- The facilitator request built from `paymentUSDCNetwork` (the resolved
route is the USDC token). -/
def sampleVerifyRequestUSDC : FacilitatorRequest :=
  facilitatorRequestOf sampleMiddleware paymentUSDCNetwork "/r" tokenUSDC 0 1710000000

/-- C10: the network field of both the `paymentPayload` and the
`paymentRequirements` sent to the facilitator is the constant
`"base-sepolia"`, in the verify and in the settle payload, for every
credential and whatever route was matched. -/
theorem facilitator_network_constant (m : Middleware) (payment : Payment)
    (resource : String) (vp sp : FacilitatorRequest)
    (hv : mkVerifyPayload m payment resource = .ok vp)
    (hs : mkSettlePayload m payment resource = .ok sp) :
    vp.ppNetwork = "base-sepolia" ∧ vp.requirements.network = "base-sepolia"
    ∧ sp.ppNetwork = "base-sepolia" ∧ sp.requirements.network = "base-sepolia" := by
  obtain ⟨t1, va1, vb1, _, _, _, hvp⟩ := mkVerifyPayload_ok_elim hv
  obtain ⟨t2, va2, vb2, _, _, _, hsp⟩ := mkSettlePayload_ok_elim hs
  subst hvp hsp
  exact ⟨rfl, rfl, rfl, rfl⟩

/-- Witness for C10: the credential naming `eip155:84532` (matched to the
USDC route) is still forwarded with network `"base-sepolia"` in both
payload positions. -/
theorem facilitator_network_witness :
    sampleVerifyRequestUSDC.ppNetwork = "base-sepolia"
    ∧ sampleVerifyRequestUSDC.requirements.network = "base-sepolia"
    ∧ sampleVerifyRequestUSDC.ppNetwork = "base-sepolia"
    ∧ sampleVerifyRequestUSDC.requirements.network = "base-sepolia" :=
  facilitator_network_constant sampleMiddleware paymentUSDCNetwork "/r"
    sampleVerifyRequestUSDC sampleVerifyRequestUSDC (by decide) (by decide)

end X402
